import Mathlib

/-!
Verification of `src/PostgresDatabaseHelper.py` (class `PostgresHelper`).

The Python class is a thin wrapper around a psycopg2 connection/cursor pair.
We embed each method as a pure Lean function.  All interaction with the
driver (psycopg2) is represented by an oracle (`Driver`, `ConnectDriver`,
`CloseDriver`) giving the outcome of each driver call, and every method
returns, besides its Python return value or raised exception, the ordered
trace of observable effects (`Event`) it performed: driver calls and log
messages.  Python exceptions that the class does not wrap (for instance the
`AttributeError` raised at line 66 of the source) surface as
`PgError.pythonError`.
-/

set_option autoImplicit false

/-- A parameter tuple bound to a statement (Python: a tuple of values,
modelled with integer values, which is enough for every claim). -/
abbrev Params := List Int

/-- A result row: `RealDictCursor` yields a field-name-to-value mapping,
the default cursor yields a positional tuple. -/
inductive Row where
  | dict (fields : List (String × Int))
  | tup (vals : List Int)
deriving DecidableEq, Repr

/-- The observable effects a method can perform, in order: driver calls on
the cursor/connection and messages sent to the logger. -/
inductive Event where
  | connect
  | execute (query : String) (params : Option Params)
  | executemany (query : String) (chunk : List Params)
  | fetchall
  | fetchone
  | commitCall
  | rollbackCall
  | logInfo (msg : String)
  | logError (msg : String)
  | closeCursor
  | closeConnection
deriving DecidableEq, Repr

/-- What escapes a method to the caller when it fails.
`connectionError` is `PostgresDbConnectionError`, `queryExecutionError` is
`PostgresDbQueryExecutionError`; `pythonError` is any unwrapped Python
exception (e.g. an `AttributeError` or a psycopg2 error raised outside a
`try` block or inside an `except` block). -/
inductive PgError where
  | connectionError (msg : String)
  | queryExecutionError (msg : String)
  | pythonError (msg : String)
deriving DecidableEq, Repr

/-- Result of running one method: the Python return value or raised error,
and the ordered trace of effects performed. -/
structure MethodResult (α : Type) where
  result : Except PgError α
  events : List Event
deriving Repr

/-- Oracle for the driver calls an open helper can make.  `execOutcome` and
`execManyOutcome` give the outcome of `cursor.execute` / `cursor.executemany`
for given arguments; fetches either return data or raise. -/
structure Driver where
  execOutcome : String → Option Params → Except String Unit
  execManyOutcome : String → List Params → Except String Unit
  fetchallOutcome : Except String (List Row)
  fetchoneOutcome : Except String (Option Row)
  commitOutcome : Except String Unit
  rollbackOutcome : Except String Unit

/-- Oracle for `psycopg2.connect` at construction time. -/
structure ConnectDriver where
  connectOutcome : Except String Unit

/-- Oracle for `cursor.close()` and `connection.close()`. -/
structure CloseDriver where
  cursorCloseOutcome : Except String Unit
  connCloseOutcome : Except String Unit

/-- The instance attributes that `close()` reads: the truthiness of
`self.cursor` and `self.connection`. -/
structure HelperState where
  connection : Bool
  cursor : Bool
deriving DecidableEq, Repr

/-- Python attribute assignment `conn.autocommit = b` (line 66 of the
source): on `None` it raises `AttributeError`. -/
def setAutocommitAttr (conn : Option Unit) (_b : Bool) : Except String Unit :=
  match conn with
  | none => .error "AttributeError: NoneType object has no attribute autocommit"
  | some _ => .ok ()

/-- Lines 67-83 of `PostgresHelper.__init__`: assign the logger, then
`try:` connect, set autocommit, create the cursor, log success;
`except:` log the error and raise `PostgresDbConnectionError`.
(The cursor factory chosen from `use_dict_cursor` has no observable
effect beyond the shape of later fetches, which the `Driver` oracle
carries.) -/
def initFromLine67 (d : ConnectDriver) (_autocommit _use_dict_cursor : Bool) :
    MethodResult HelperState :=
  match d.connectOutcome with
  | .ok _ =>
      { result := .ok { connection := true, cursor := true },
        events := [.connect, .logInfo "Database connection established successfully."] }
  | .error e =>
      let msg := "Error connecting to the database: " ++ e
      { result := .error (.connectionError msg), events := [.connect, .logError msg] }

/-- `PostgresHelper.__init__` (source lines 64-83).  Lines 64-65 set
`self.connection` and `self.cursor` to `None`; line 66 then evaluates
`self.connection.autocommit = autocommit` on that `None` value, which
raises `AttributeError` before the logger is assigned and before any
connection is attempted.  Control reaches `initFromLine67` only if that
assignment succeeds. -/
def PostgresHelper.init (d : ConnectDriver) (autocommit use_dict_cursor : Bool) :
    MethodResult HelperState :=
  let connection : Option Unit := none
  let _cursor : Option Unit := none
  match setAutocommitAttr connection autocommit with
  | .error msg => { result := .error (.pythonError msg), events := [] }
  | .ok _ => initFromLine67 d autocommit use_dict_cursor

/-- The `except Exception as e:` block shared by every statement-executing
method (e.g. source lines 128-131): log the formatted error message, call
`self.connection.rollback()`, then raise `PostgresDbQueryExecutionError`.
If the rollback call itself raises, that exception propagates out of the
`except` block instead of the wrapped error. -/
def execExceptBlock {α : Type} (rollbackOutcome : Except String Unit) (msg : String)
    (pre : List Event) : MethodResult α :=
  match rollbackOutcome with
  | .ok _ =>
      { result := .error (.queryExecutionError msg),
        events := pre ++ [.logError msg, .rollbackCall] }
  | .error r =>
      { result := .error (.pythonError r),
        events := pre ++ [.logError msg, .rollbackCall] }

/-- Python `query.strip().lower()` (line 125), over the character list so
that it evaluates on concrete inputs: drop whitespace at both ends, then
lowercase every character. -/
def pyStripLower (s : String) : List Char :=
  (((s.toList.dropWhile Char.isWhitespace).reverse.dropWhile
      Char.isWhitespace).reverse).map Char.toLower

/-- Python `query.strip().lower().startswith("select")` (line 125): the
first six characters of the stripped, lowercased text are `select`. -/
def pyStartswithSelect (query : String) : Bool :=
  (pyStripLower query).take 6 == "select".toList

/-- `PostgresHelper.select_execute_query` (source lines 106-131):
execute the statement; if the stripped, lowercased text starts with the
prefix `"select"`, fetch and return all rows, else return `None`;
on any failure log, roll back, and raise
`PostgresDbQueryExecutionError`. -/
def PostgresHelper.select_execute_query (d : Driver) (query : String)
    (params : Option Params) : MethodResult (Option (List Row)) :=
  match d.execOutcome query params with
  | .error e =>
      execExceptBlock d.rollbackOutcome ("Error executing query: " ++ e)
        [.execute query params]
  | .ok _ =>
      if pyStartswithSelect query then
        match d.fetchallOutcome with
        | .ok rows => { result := .ok (some rows), events := [.execute query params, .fetchall] }
        | .error e =>
            execExceptBlock d.rollbackOutcome ("Error executing query: " ++ e)
              [.execute query params, .fetchall]
      else
        { result := .ok none, events := [.execute query params] }

/-- Python subscription `result['count'] if use_dict_cursor else result[0]`
(source line 149), with `result` the value returned by `fetchone()`:
subscripting `None` raises `TypeError`; a missing key raises `KeyError`;
an out-of-range index raises `IndexError`; subscripting a dict row with an
integer or a tuple row with a string raises accordingly. -/
def subscriptCount (use_dict_cursor : Bool) (row : Option Row) : Except String Int :=
  match row with
  | none => .error "TypeError: NoneType object is not subscriptable"
  | some r =>
    if use_dict_cursor then
      match r with
      | .dict fields =>
          match fields.lookup "count" with
          | some v => .ok v
          | none => .error "KeyError: count"
      | .tup _ => .error "TypeError: tuple indices must be integers or slices, not str"
    else
      match r with
      | .dict _ => .error "KeyError: 0"
      | .tup vals =>
          match vals.head? with
          | some v => .ok v
          | none => .error "IndexError: tuple index out of range"

/-- `PostgresHelper.select_get_count_query` (source lines 133-153):
execute, `fetchone()`, then return `result['count']` (dict cursor) or
`result[0]` (tuple cursor); on any failure, the subscription errors
included, log, roll back and raise `PostgresDbQueryExecutionError`. -/
def PostgresHelper.select_get_count_query (d : Driver) (use_dict_cursor : Bool)
    (query : String) (params : Option Params) : MethodResult Int :=
  match d.execOutcome query params with
  | .error e =>
      execExceptBlock d.rollbackOutcome ("Error getting row count: " ++ e)
        [.execute query params]
  | .ok _ =>
      match d.fetchoneOutcome with
      | .error e =>
          execExceptBlock d.rollbackOutcome ("Error getting row count: " ++ e)
            [.execute query params, .fetchone]
      | .ok result =>
          match subscriptCount use_dict_cursor result with
          | .ok v => { result := .ok v, events := [.execute query params, .fetchone] }
          | .error e =>
              execExceptBlock d.rollbackOutcome ("Error getting row count: " ++ e)
                [.execute query params, .fetchone]

/-- `PostgresHelper.insert` (source lines 155-172): execute, then commit
iff `self.connection.autocommit`; on any failure, a commit failure
included, log, roll back, raise `PostgresDbQueryExecutionError`. -/
def PostgresHelper.insert (d : Driver) (autocommit : Bool) (query : String)
    (params : Option Params) : MethodResult Unit :=
  match d.execOutcome query params with
  | .error e =>
      execExceptBlock d.rollbackOutcome ("Error executing insert: " ++ e)
        [.execute query params]
  | .ok _ =>
      if autocommit then
        match d.commitOutcome with
        | .ok _ => { result := .ok (), events := [.execute query params, .commitCall] }
        | .error e =>
            execExceptBlock d.rollbackOutcome ("Error executing insert: " ++ e)
              [.execute query params, .commitCall]
      else
        { result := .ok (), events := [.execute query params] }

/-- `PostgresHelper.update_execute_query` (source lines 197-214); same
structure as `insert`, with the update error message. -/
def PostgresHelper.update_execute_query (d : Driver) (autocommit : Bool) (query : String)
    (params : Option Params) : MethodResult Unit :=
  match d.execOutcome query params with
  | .error e =>
      execExceptBlock d.rollbackOutcome ("Error executing update: " ++ e)
        [.execute query params]
  | .ok _ =>
      if autocommit then
        match d.commitOutcome with
        | .ok _ => { result := .ok (), events := [.execute query params, .commitCall] }
        | .error e =>
            execExceptBlock d.rollbackOutcome ("Error executing update: " ++ e)
              [.execute query params, .commitCall]
      else
        { result := .ok (), events := [.execute query params] }

/-- `PostgresHelper.delete_execute_query` (source lines 216-233); same
structure as `insert`, with the delete error message. -/
def PostgresHelper.delete_execute_query (d : Driver) (autocommit : Bool) (query : String)
    (params : Option Params) : MethodResult Unit :=
  match d.execOutcome query params with
  | .error e =>
      execExceptBlock d.rollbackOutcome ("Error executing delete: " ++ e)
        [.execute query params]
  | .ok _ =>
      if autocommit then
        match d.commitOutcome with
        | .ok _ => { result := .ok (), events := [.execute query params, .commitCall] }
        | .error e =>
            execExceptBlock d.rollbackOutcome ("Error executing delete: " ++ e)
              [.execute query params, .commitCall]
      else
        { result := .ok (), events := [.execute query params] }

/-- Python `range(0, n, step)` as evaluated at source line 187.  A zero
step raises `ValueError`; a negative step with `0 ≤ n` yields the empty
sequence; a positive step yields `0, step, 2*step, ...` while below `n`. -/
def pyRange0 (n : Nat) (step : Int) : Except String (List Nat) :=
  if step = 0 then .error "range() arg 3 must not be zero"
  else if step < 0 then .ok []
  else .ok ((List.range ((n + step.toNat - 1) / step.toNat)).map (fun j => j * step.toNat))

/-- Python slice `data[i : i + chunk_size]` at source line 188 for `0 ≤ i`:
the sublist starting at `i` of length at most `chunk_size` (empty when
`chunk_size` is negative). -/
def pySliceChunk (data : List Params) (i : Nat) (chunk_size : Int) : List Params :=
  (data.drop i).take chunk_size.toNat

/-- The `for` loop of `PostgresHelper.bulk_insert` (source lines 187-189):
for each start index, slice the chunk and `executemany` it; stop at the
first driver failure, carrying the events performed so far. -/
def bulkExecLoop (d : Driver) (query : String) (data : List Params) (chunk_size : Int) :
    List Nat → List Event → Except (String × List Event) (List Event)
  | [], acc => .ok acc
  | i :: rest, acc =>
      let chunk := pySliceChunk data i chunk_size
      match d.execManyOutcome query chunk with
      | .ok _ => bulkExecLoop d query data chunk_size rest (acc ++ [.executemany query chunk])
      | .error e => .error (e, acc ++ [.executemany query chunk])

/-- `PostgresHelper.bulk_insert` (source lines 174-195): inside `try:`,
iterate `range(0, len(data), chunk_size)` slicing and `executemany`-ing
each chunk, then commit once iff `self.connection.autocommit`; any failure
(the `range` `ValueError` included) is logged, rolled back and re-raised
as `PostgresDbQueryExecutionError`. -/
def PostgresHelper.bulk_insert (d : Driver) (autocommit : Bool) (query : String)
    (data : List Params) (chunk_size : Int) : MethodResult Unit :=
  match pyRange0 data.length chunk_size with
  | .error e =>
      execExceptBlock d.rollbackOutcome ("Error executing bulk insert: " ++ e) []
  | .ok idxs =>
      match bulkExecLoop d query data chunk_size idxs [] with
      | .error (e, evs) =>
          execExceptBlock d.rollbackOutcome ("Error executing bulk insert: " ++ e) evs
      | .ok evs =>
          if autocommit then
            match d.commitOutcome with
            | .ok _ => { result := .ok (), events := evs ++ [.commitCall] }
            | .error e =>
                execExceptBlock d.rollbackOutcome ("Error executing bulk insert: " ++ e)
                  (evs ++ [.commitCall])
          else
            { result := .ok (), events := evs }

/-- `PostgresHelper.commit` (source lines 235-243): commit; on failure log
and raise `PostgresDbQueryExecutionError` (no rollback is attempted). -/
def PostgresHelper.commit (d : Driver) : MethodResult Unit :=
  match d.commitOutcome with
  | .ok _ => { result := .ok (), events := [.commitCall] }
  | .error e =>
      let msg := "Error committing transaction: " ++ e
      { result := .error (.queryExecutionError msg), events := [.commitCall, .logError msg] }

/-- `PostgresHelper.rollback` (source lines 245-253): roll back; on failure
log and raise `PostgresDbQueryExecutionError`. -/
def PostgresHelper.rollback (d : Driver) : MethodResult Unit :=
  match d.rollbackOutcome with
  | .ok _ => { result := .ok (), events := [.rollbackCall] }
  | .error e =>
      let msg := "Error rolling back transaction: " ++ e
      { result := .error (.queryExecutionError msg), events := [.rollbackCall, .logError msg] }

/-- Second half of `PostgresHelper.close` (source lines 262-264):
`if self.connection: self.connection.close(); log info`.  The attribute
is never reassigned, so the returned state is the input state. -/
def closeConnPart (d : CloseDriver) (st : HelperState) (pre : List Event) :
    MethodResult HelperState :=
  if st.connection then
    match d.connCloseOutcome with
    | .error e =>
        let msg := "Error closing connection: " ++ e
        { result := .error (.connectionError msg),
          events := pre ++ [.closeConnection, .logError msg] }
    | .ok _ =>
        { result := .ok st,
          events := pre ++ [.closeConnection, .logInfo "Database connection closed."] }
  else
    { result := .ok st, events := pre }

/-- `PostgresHelper.close` (source lines 255-267): close the cursor if
`self.cursor` is truthy, then the connection if `self.connection` is
truthy, logging success after the connection close; any failure is logged
and raised as `PostgresDbConnectionError`.  Neither `self.cursor` nor
`self.connection` is set to `None`, so the instance state is returned
unchanged. -/
def PostgresHelper.close (d : CloseDriver) (st : HelperState) : MethodResult HelperState :=
  if st.cursor then
    match d.cursorCloseOutcome with
    | .error e =>
        let msg := "Error closing connection: " ++ e
        { result := .error (.connectionError msg), events := [.closeCursor, .logError msg] }
    | .ok _ => closeConnPart d st [.closeCursor]
  else
    closeConnPart d st []

/-- The leading keyword of a statement as the specification words it: the
first whitespace-delimited token after ignoring leading whitespace,
compared case-insensitively (modelled by lowercasing it).  This definition
follows the claim text, to be compared with the prefix test the source
performs. -/
def specLeadingKeyword (s : String) : String :=
  String.mk (((s.toList.dropWhile Char.isWhitespace).takeWhile
    (fun c => !c.isWhitespace)).map Char.toLower)

/-- The parameter tuples a trace applied to the database, in order: one per
`execute` with bound parameters, a chunk per `executemany`. -/
def Event.appliedParams : Event → List Params
  | .execute _ (some p) => [p]
  | .executemany _ chunk => chunk
  | _ => []

/-- All parameter tuples applied by a trace, in order. -/
def appliedRows (evs : List Event) : List Params :=
  (evs.map Event.appliedParams).flatten

/-- A driver whose calls all succeed; fetches return one positional row
`(1)`. -/
def okDriver : Driver where
  execOutcome := fun _ _ => .ok ()
  execManyOutcome := fun _ _ => .ok ()
  fetchallOutcome := .ok [Row.tup [1]]
  fetchoneOutcome := .ok (some (Row.tup [1]))
  commitOutcome := .ok ()
  rollbackOutcome := .ok ()

/-- C1: the claim says that for valid construction parameters the
constructor opens one connection, configures it, logs success and leaves
the instance Open.  The code cannot: line 66 assigns
`self.connection.autocommit` while `self.connection` is still `None`
(line 64), so `__init__` always raises `AttributeError` before the logger
exists and before `psycopg2.connect` is called — even when the connection
would succeed.  The last two conjuncts show the `try:` body starting at
line 67 (the clear intent) does exactly what the claim states. -/
theorem C1_init_always_raises_attributeError (ac udc : Bool) :
    (PostgresHelper.init ⟨.ok ()⟩ ac udc).result
        = .error (.pythonError "AttributeError: NoneType object has no attribute autocommit")
    ∧ (PostgresHelper.init ⟨.ok ()⟩ ac udc).events = []
    ∧ (initFromLine67 ⟨.ok ()⟩ ac udc).result = .ok { connection := true, cursor := true }
    ∧ (initFromLine67 ⟨.ok ()⟩ ac udc).events
        = [.connect, .logInfo "Database connection established successfully."] :=
  ⟨rfl, rfl, rfl, rfl⟩

/-- C2: the claim says a failing connection attempt is logged and
re-raised as `ConnectionError` with nothing else escaping.  Because of the
line-66 `AttributeError`, construction never reaches the connection
attempt: it raises `AttributeError` (not `PostgresDbConnectionError`) and
logs nothing, for every connection outcome.  The last two conjuncts show
the `try:` body starting at line 67 (the clear intent) does exactly what
the claim states. -/
theorem C2_init_failure_is_not_connectionError (e : String) (ac udc : Bool) :
    (PostgresHelper.init ⟨.error e⟩ ac udc).result
        = .error (.pythonError "AttributeError: NoneType object has no attribute autocommit")
    ∧ (PostgresHelper.init ⟨.error e⟩ ac udc).events = []
    ∧ (∀ msg, (PostgresHelper.init ⟨.error e⟩ ac udc).result ≠ .error (.connectionError msg))
    ∧ (initFromLine67 ⟨.error e⟩ ac udc).result
        = .error (.connectionError ("Error connecting to the database: " ++ e))
    ∧ (initFromLine67 ⟨.error e⟩ ac udc).events
        = [.connect, .logError ("Error connecting to the database: " ++ e)] := by
  refine ⟨rfl, rfl, ?_, rfl, rfl⟩
  intro msg h
  simp [PostgresHelper.init, setAutocommitAttr] at h

/-- C3 counterexample: the claim says rows are returned if and only if the
statement's leading keyword is `select`.  The source (line 125) tests the
character prefix `"select"` of the stripped lowercased text, so the
statement `"selection 1"` — whose leading keyword is `selection`, not
`select` — still returns the fetched rows. -/
theorem C3_counterexample :
    (PostgresHelper.select_execute_query okDriver "selection 1" none).result
        = .ok (some [Row.tup [1]])
    ∧ specLeadingKeyword "selection 1" ≠ "select" := by
  constructor
  · rfl
  · decide

/-- C3 (amended): on a successful execution, `select_execute_query`
returns all fetched rows exactly when the stripped lowercased statement
starts with the character prefix `"select"` (the test the source performs
at line 125, which also accepts e.g. `"selection"`); for any other
statement it returns `None` and performs no fetch. -/
theorem C3_rows_iff_select_prefix (d : Driver) (query : String) (params : Option Params)
    (rows : List Row)
    (hexec : d.execOutcome query params = .ok ())
    (hfetch : d.fetchallOutcome = .ok rows) :
    (pyStartswithSelect query = true →
        (PostgresHelper.select_execute_query d query params).result = .ok (some rows)
        ∧ (PostgresHelper.select_execute_query d query params).events
            = [.execute query params, .fetchall])
    ∧ (pyStartswithSelect query = false →
        (PostgresHelper.select_execute_query d query params).result = .ok none
        ∧ (PostgresHelper.select_execute_query d query params).events
            = [.execute query params]) := by
  constructor
  · intro h
    simp [PostgresHelper.select_execute_query, hexec, h, hfetch]
  · intro h
    simp [PostgresHelper.select_execute_query, hexec, h]

/-- Witness for C3: a statement starting with `SELECT` (after leading
whitespace, case-insensitively) returns the fetched rows; an `update`
statement returns `None`. -/
theorem C3_rows_iff_select_prefix_witness :
    (PostgresHelper.select_execute_query okDriver " SELECT 1" none).result
        = .ok (some [Row.tup [1]])
    ∧ (PostgresHelper.select_execute_query okDriver "update t set x = 1" none).result
        = .ok none := by
  have h1 := C3_rows_iff_select_prefix okDriver " SELECT 1" none [Row.tup [1]] rfl rfl
  have h2 := C3_rows_iff_select_prefix okDriver "update t set x = 1" none [Row.tup [1]] rfl rfl
  exact ⟨(h1.1 (by decide)).1, (h2.2 (by decide)).1⟩

/-- A driver whose statement executions, fetches and commit all fail with
message `boom` while rollback succeeds. -/
def failingDriver : Driver where
  execOutcome := fun _ _ => .error "boom"
  execManyOutcome := fun _ _ => .error "boom"
  fetchallOutcome := .error "boom"
  fetchoneOutcome := .error "boom"
  commitOutcome := .error "boom"
  rollbackOutcome := .ok ()

/-- A driver whose statement executions fail and whose rollback also fails
(for instance because the server connection has dropped). -/
def failingRollbackDriver : Driver where
  execOutcome := fun _ _ => .error "boom"
  execManyOutcome := fun _ _ => .error "boom"
  fetchallOutcome := .error "boom"
  fetchoneOutcome := .error "boom"
  commitOutcome := .error "boom"
  rollbackOutcome := .error "connection already closed"

/-- C4 counterexample: the claim says every execution failure is
re-signaled as `QueryExecutionError`.  But the automatic rollback inside
the `except` block (line 130) is itself a driver call; when it raises —
here with `connection already closed` — that raw exception escapes the
`except` block in place of `PostgresDbQueryExecutionError`. -/
theorem C4_counterexample :
    (PostgresHelper.select_execute_query failingRollbackDriver "select 1" none).result
        = .error (.pythonError "connection already closed")
    ∧ ∀ msg, (PostgresHelper.select_execute_query failingRollbackDriver "select 1" none).result
        ≠ .error (.queryExecutionError msg) := by
  refine ⟨rfl, ?_⟩
  intro msg h
  simp [PostgresHelper.select_execute_query, failingRollbackDriver, execExceptBlock] at h

/-- With non-empty data and a positive chunk size, the chunk start indices
produced at line 187 begin with 0. -/
theorem pyRange0_cons (n : Nat) (cs : Int) (hn : 0 < n) (hcs : 0 < cs) :
    ∃ rest, pyRange0 n cs = .ok (0 :: rest) := by
  have h0 : ¬ cs = 0 := by omega
  have h1 : ¬ cs < 0 := by omega
  have hcsn : 0 < cs.toNat := by omega
  have hq : 0 < (n + cs.toNat - 1) / cs.toNat := Nat.div_pos (by omega) hcsn
  obtain ⟨m, hm⟩ : ∃ m, (n + cs.toNat - 1) / cs.toNat = m + 1 :=
    ⟨(n + cs.toNat - 1) / cs.toNat - 1, by omega⟩
  refine ⟨(List.map Nat.succ (List.range m)).map (fun j => j * cs.toNat), ?_⟩
  unfold pyRange0
  simp only [h0, h1, if_false, hm, List.range_succ_eq_map, List.map_cons]
  simp

/-- C4 (amended): every failure inside a statement-executing method
(statement execution, fetch, count subscription, chunked bulk execution,
the commit an autocommit operation issues) is logged with its cause and
triggers an automatic rollback attempt before any error is signaled, and
— provided that rollback attempt itself succeeds — is re-signaled as
`PostgresDbQueryExecutionError` carrying the cause; when the automatic
rollback attempt itself raises (last conjunct), the failure is still
logged and the rollback still attempted, but the raw rollback exception
escapes in place of `QueryExecutionError`.  Failures of `commit()` and
`rollback()` are logged and re-signaled as `PostgresDbQueryExecutionError`
without a rollback attempt.  No failure is silently swallowed. -/
theorem C4_failures_logged_rolled_back_wrapped
    (d drb : Driver) (udc : Bool) (q : String) (p : Option Params)
    (data : List Params) (cs : Int) (e r : String)
    (hexec : d.execOutcome q p = .error e)
    (hrb : d.rollbackOutcome = .ok ())
    (hcm : d.commitOutcome = .error e)
    (hem : ∀ c, d.execManyOutcome q c = .error e)
    (hexec2 : drb.execOutcome q p = .error e)
    (hrb2 : drb.rollbackOutcome = .error r)
    (hdata : data ≠ []) (hcs : 0 < cs) :
    ((PostgresHelper.select_execute_query d q p).result
        = .error (.queryExecutionError ("Error executing query: " ++ e))
      ∧ (PostgresHelper.select_execute_query d q p).events
        = [.execute q p, .logError ("Error executing query: " ++ e), .rollbackCall])
    ∧ ((PostgresHelper.select_get_count_query d udc q p).result
        = .error (.queryExecutionError ("Error getting row count: " ++ e))
      ∧ (PostgresHelper.select_get_count_query d udc q p).events
        = [.execute q p, .logError ("Error getting row count: " ++ e), .rollbackCall])
    ∧ (∀ ac, (PostgresHelper.insert d ac q p).result
        = .error (.queryExecutionError ("Error executing insert: " ++ e))
      ∧ (PostgresHelper.insert d ac q p).events
        = [.execute q p, .logError ("Error executing insert: " ++ e), .rollbackCall])
    ∧ (∀ ac, (PostgresHelper.update_execute_query d ac q p).result
        = .error (.queryExecutionError ("Error executing update: " ++ e))
      ∧ (PostgresHelper.update_execute_query d ac q p).events
        = [.execute q p, .logError ("Error executing update: " ++ e), .rollbackCall])
    ∧ (∀ ac, (PostgresHelper.delete_execute_query d ac q p).result
        = .error (.queryExecutionError ("Error executing delete: " ++ e))
      ∧ (PostgresHelper.delete_execute_query d ac q p).events
        = [.execute q p, .logError ("Error executing delete: " ++ e), .rollbackCall])
    ∧ (∀ ac, (PostgresHelper.bulk_insert d ac q data cs).result
        = .error (.queryExecutionError ("Error executing bulk insert: " ++ e))
      ∧ (PostgresHelper.bulk_insert d ac q data cs).events
        = [.executemany q (data.take cs.toNat),
           .logError ("Error executing bulk insert: " ++ e), .rollbackCall])
    ∧ (∀ ac, (PostgresHelper.insert d ac q p).result
        ≠ .ok () ∧ Event.logError ("Error executing insert: " ++ e)
            ∈ (PostgresHelper.insert d ac q p).events)
    ∧ ((PostgresHelper.commit d).result
        = .error (.queryExecutionError ("Error committing transaction: " ++ e))
      ∧ (PostgresHelper.commit d).events
        = [.commitCall, .logError ("Error committing transaction: " ++ e)])
    ∧ ((PostgresHelper.rollback drb).result
        = .error (.queryExecutionError ("Error rolling back transaction: " ++ r))
      ∧ (PostgresHelper.rollback drb).events
        = [.rollbackCall, .logError ("Error rolling back transaction: " ++ r)])
    ∧ ((PostgresHelper.select_execute_query drb q p).result
        = .error (.pythonError r)
      ∧ (PostgresHelper.select_execute_query drb q p).events
        = [.execute q p, .logError ("Error executing query: " ++ e), .rollbackCall]) := by
  have hn : 0 < data.length := List.length_pos.mpr hdata
  obtain ⟨rest, hr⟩ := pyRange0_cons data.length cs hn hcs
  refine ⟨?_, ?_, ?_, ?_, ?_, ?_, ?_, ?_, ?_, ?_⟩
  · simp [PostgresHelper.select_execute_query, hexec, execExceptBlock, hrb]
  · simp [PostgresHelper.select_get_count_query, hexec, execExceptBlock, hrb]
  · intro ac
    simp [PostgresHelper.insert, hexec, execExceptBlock, hrb]
  · intro ac
    simp [PostgresHelper.update_execute_query, hexec, execExceptBlock, hrb]
  · intro ac
    simp [PostgresHelper.delete_execute_query, hexec, execExceptBlock, hrb]
  · intro ac
    simp [PostgresHelper.bulk_insert, hr, bulkExecLoop, pySliceChunk, hem,
      execExceptBlock, hrb]
  · intro ac
    simp [PostgresHelper.insert, hexec, execExceptBlock, hrb]
  · simp [PostgresHelper.commit, hcm]
  · simp [PostgresHelper.rollback, hrb2]
  · simp [PostgresHelper.select_execute_query, hexec2, execExceptBlock, hrb2]

/-- Witness for C4: at a concrete failing driver, a failing `insert` is
re-signaled as `PostgresDbQueryExecutionError` with the cause in the
message. -/
theorem C4_failures_logged_rolled_back_wrapped_witness :
    (PostgresHelper.insert failingDriver true "select 1" none).result
        = .error (.queryExecutionError ("Error executing insert: " ++ "boom")) :=
  ((C4_failures_logged_rolled_back_wrapped failingDriver failingRollbackDriver true
      "select 1" none [[1]] 1 "boom" "connection already closed" rfl rfl rfl
      (fun _ => rfl) rfl rfl (by simp) (by decide)).2.2.1 true).1

/-- C5: a mutating operation (insert, update, delete) whose statement
executes successfully issues a commit immediately after the execute when
autocommit mode is enabled, and issues no commit at all when it is
disabled (the change then stays pending for an explicit `commit()`). -/
theorem C5_mutations_commit_iff_autocommit
    (d : Driver) (q : String) (p : Option Params)
    (hexec : d.execOutcome q p = .ok ())
    (hcm : d.commitOutcome = .ok ()) :
    ((PostgresHelper.insert d true q p).result = .ok ()
      ∧ (PostgresHelper.insert d true q p).events = [.execute q p, .commitCall])
    ∧ ((PostgresHelper.insert d false q p).result = .ok ()
      ∧ (PostgresHelper.insert d false q p).events = [.execute q p])
    ∧ ((PostgresHelper.update_execute_query d true q p).result = .ok ()
      ∧ (PostgresHelper.update_execute_query d true q p).events
          = [.execute q p, .commitCall])
    ∧ ((PostgresHelper.update_execute_query d false q p).result = .ok ()
      ∧ (PostgresHelper.update_execute_query d false q p).events = [.execute q p])
    ∧ ((PostgresHelper.delete_execute_query d true q p).result = .ok ()
      ∧ (PostgresHelper.delete_execute_query d true q p).events
          = [.execute q p, .commitCall])
    ∧ ((PostgresHelper.delete_execute_query d false q p).result = .ok ()
      ∧ (PostgresHelper.delete_execute_query d false q p).events = [.execute q p]) := by
  refine ⟨?_, ?_, ?_, ?_, ?_, ?_⟩
  · simp [PostgresHelper.insert, hexec, hcm]
  · simp [PostgresHelper.insert, hexec]
  · simp [PostgresHelper.update_execute_query, hexec, hcm]
  · simp [PostgresHelper.update_execute_query, hexec]
  · simp [PostgresHelper.delete_execute_query, hexec, hcm]
  · simp [PostgresHelper.delete_execute_query, hexec]

/-- Witness for C5: with every driver call succeeding, an autocommitting
insert executes then commits; a non-autocommitting insert only executes. -/
theorem C5_mutations_commit_iff_autocommit_witness :
    (PostgresHelper.insert okDriver true "INSERT INTO t VALUES (1)" (some [1])).events
        = [.execute "INSERT INTO t VALUES (1)" (some [1]), .commitCall]
    ∧ (PostgresHelper.insert okDriver false "INSERT INTO t VALUES (1)" (some [1])).events
        = [.execute "INSERT INTO t VALUES (1)" (some [1])] := by
  have h := C5_mutations_commit_iff_autocommit okDriver "INSERT INTO t VALUES (1)"
    (some [1]) rfl rfl
  exact ⟨h.1.2, h.2.1.2⟩

/-- Chunk decomposition: slicing a list at the start indices
`0, k, 2k, ...` produced by `range(0, len(data), k)` with positive `k`
and concatenating the slices gives back the list. -/
theorem flatten_chunks (k : Nat) (hk : 0 < k) :
    ∀ (n : Nat) (data : List Params), data.length = n →
      (((List.range ((n + k - 1) / k)).map (fun j => j * k)).map
          (fun i => (data.drop i).take k)).flatten = data := by
  intro n
  induction n using Nat.strong_induction_on with
  | _ n ih =>
    intro data hlen
    rcases Nat.eq_zero_or_pos n with hn | hn
    · have hz : (n + k - 1) / k = 0 := by
        subst hn
        exact Nat.div_eq_of_lt (by omega)
      have hd : data = [] := List.length_eq_zero.mp (by omega)
      simp [hz, hd]
    · have hstep : n + k - 1 = (n - 1) + k := by omega
      have hdiv : (n + k - 1) / k = (n - 1) / k + 1 := by
        rw [hstep, Nat.add_div_right _ hk]
      have hdiv2 : (n - 1) / k = ((n - k) + k - 1) / k := by
        rcases le_or_lt k n with h | h
        · congr 1
          omega
        · rw [Nat.div_eq_of_lt (by omega), Nat.div_eq_of_lt (by omega)]
      rw [hdiv, hdiv2, List.range_succ_eq_map]
      simp only [List.map_cons, List.map_map, List.flatten_cons, Nat.zero_mul, List.drop_zero]
      have hmap : (List.range (((n - k) + k - 1) / k)).map
            ((fun i => (data.drop i).take k) ∘ (fun j => j * k) ∘ Nat.succ)
          = (List.range (((n - k) + k - 1) / k)).map
            ((fun i => ((data.drop k).drop i).take k) ∘ (fun j => j * k)) := by
        apply List.map_congr_left
        intro j _
        simp only [Function.comp_apply, List.drop_drop, Nat.succ_mul, Nat.add_comm]
      rw [hmap]
      have ih' := ih (n - k) (by omega) (data.drop k) (by simp [hlen])
      simp only [List.map_map] at ih'
      rw [ih', List.take_append_drop]

/-- When every `executemany` call succeeds, the chunk loop of
`bulk_insert` runs to completion, appending one `executemany` event per
start index. -/
theorem bulkExecLoop_ok (d : Driver) (q : String) (data : List Params) (cs : Int)
    (hem : ∀ c, d.execManyOutcome q c = .ok ()) :
    ∀ (idxs : List Nat) (acc : List Event),
      bulkExecLoop d q data cs idxs acc
        = .ok (acc ++ idxs.map (fun i => .executemany q (pySliceChunk data i cs))) := by
  intro idxs
  induction idxs with
  | nil =>
      intro acc
      simp [bulkExecLoop]
  | cons i rest ih =>
      intro acc
      simp [bulkExecLoop, hem, ih]

/-- `appliedRows` distributes over trace concatenation. -/
theorem appliedRows_append (a b : List Event) :
    appliedRows (a ++ b) = appliedRows a ++ appliedRows b := by
  simp [appliedRows]


/-- Concatenating singleton lists restores the list. -/
theorem flatten_map_singleton (l : List Params) : (l.map (fun a => [a])).flatten = l := by
  induction l with
  | nil => rfl
  | cons a t ih => simp [ih]

/-- C6: `bulk_insert` with any positive chunk size applies the statement
to exactly the given rows, in input order — equal to row-by-row `insert`
application and independent of the chunk size — with every executed chunk
of size at most the chunk size; when autocommit mode is enabled it issues
exactly one commit, placed at the end of the trace, and when disabled it
issues none. -/
theorem C6_bulk_insert_refines_row_by_row
    (d : Driver) (ac : Bool) (q : String) (data : List Params) (cs : Int)
    (hcs : 0 < cs)
    (hem : ∀ c, d.execManyOutcome q c = .ok ())
    (hex : ∀ p, d.execOutcome q p = .ok ())
    (hcm : d.commitOutcome = .ok ()) :
    (PostgresHelper.bulk_insert d ac q data cs).result = .ok ()
    ∧ appliedRows (PostgresHelper.bulk_insert d ac q data cs).events = data
    ∧ appliedRows (PostgresHelper.bulk_insert d ac q data cs).events
        = (data.map (fun row =>
            appliedRows (PostgresHelper.insert d false q (some row)).events)).flatten
    ∧ (∀ qq c, Event.executemany qq c ∈ (PostgresHelper.bulk_insert d ac q data cs).events
        → c.length ≤ cs.toNat)
    ∧ (ac = true → ∃ pre, (PostgresHelper.bulk_insert d ac q data cs).events
          = pre ++ [Event.commitCall] ∧ Event.commitCall ∉ pre)
    ∧ (ac = false → Event.commitCall ∉ (PostgresHelper.bulk_insert d ac q data cs).events) := by
  have hkpos : 0 < cs.toNat := by omega
  have hrange : pyRange0 data.length cs
      = .ok ((List.range ((data.length + cs.toNat - 1) / cs.toNat)).map
          (fun j => j * cs.toNat)) := by
    unfold pyRange0
    have h0 : ¬ cs = 0 := by omega
    have h1 : ¬ cs < 0 := by omega
    simp [h0, h1]
  have hloop := bulkExecLoop_ok d q data cs hem
    ((List.range ((data.length + cs.toNat - 1) / cs.toNat)).map (fun j => j * cs.toNat)) []
  have hshape : PostgresHelper.bulk_insert d ac q data cs
      = { result := .ok (),
          events := ((List.range ((data.length + cs.toNat - 1) / cs.toNat)).map
              (fun j => j * cs.toNat)).map
                (fun i => Event.executemany q (pySliceChunk data i cs))
            ++ if ac then [Event.commitCall] else [] } := by
    simp only [PostgresHelper.bulk_insert, hrange, hloop, List.nil_append]
    cases ac with
    | true => simp [hcm]
    | false => simp
  have happlied : appliedRows (PostgresHelper.bulk_insert d ac q data cs).events = data := by
    rw [hshape]
    simp only [appliedRows_append]
    have h1 : appliedRows (((List.range ((data.length + cs.toNat - 1) / cs.toNat)).map
          (fun j => j * cs.toNat)).map
            (fun i => Event.executemany q (pySliceChunk data i cs)))
        = (((List.range ((data.length + cs.toNat - 1) / cs.toNat)).map
            (fun j => j * cs.toNat)).map
              (fun i => (data.drop i).take cs.toNat)).flatten := by
      simp only [appliedRows, List.map_map]
      congr 1
    have h2 : appliedRows (if ac then [Event.commitCall] else []) = [] := by
      cases ac <;> simp [appliedRows, Event.appliedParams]
    rw [h1, h2, flatten_chunks cs.toNat hkpos data.length data rfl, List.append_nil]
  refine ⟨?_, happlied, ?_, ?_, ?_, ?_⟩
  · rw [hshape]
  · rw [happlied]
    have hone : ∀ row : Params,
        appliedRows (PostgresHelper.insert d false q (some row)).events = [row] := by
      intro row
      simp [PostgresHelper.insert, hex, appliedRows, Event.appliedParams]
    simp only [hone]
    exact (flatten_map_singleton data).symm
  · intro qq c hmem
    rw [hshape] at hmem
    rcases List.mem_append.mp hmem with hmem | hmem
    · obtain ⟨i, -, hi⟩ := List.mem_map.mp hmem
      injection hi with hq hc
      rw [← hc]
      simp only [pySliceChunk, List.length_take]
      omega
    · cases ac <;> simp at hmem
  · intro hac
    subst hac
    refine ⟨((List.range ((data.length + cs.toNat - 1) / cs.toNat)).map
        (fun j => j * cs.toNat)).map
          (fun i => Event.executemany q (pySliceChunk data i cs)), ?_, ?_⟩
    · rw [hshape]
      simp
    · intro hmemc
      obtain ⟨i, -, h⟩ := List.mem_map.mp hmemc
      exact Event.noConfusion h
  · intro hac
    subst hac
    rw [hshape]
    simp only [Bool.false_eq_true, if_false, List.append_nil]
    intro hmemc
    obtain ⟨i, -, h⟩ := List.mem_map.mp hmemc
    exact Event.noConfusion h

/-- Witness for C6: three rows bulk-inserted with chunk size 2 are applied
exactly in order, and with autocommit enabled the trace ends in a single
commit. -/
theorem C6_bulk_insert_refines_row_by_row_witness :
    (PostgresHelper.bulk_insert okDriver true "INSERT INTO t VALUES (%s)"
        [[1], [2], [3]] 2).result = .ok ()
    ∧ appliedRows (PostgresHelper.bulk_insert okDriver true "INSERT INTO t VALUES (%s)"
        [[1], [2], [3]] 2).events = [[1], [2], [3]] := by
  have h := C6_bulk_insert_refines_row_by_row okDriver true "INSERT INTO t VALUES (%s)"
    [[1], [2], [3]] 2 (by decide) (fun _ => rfl) (fun _ => rfl) rfl
  exact ⟨h.1, h.2.1⟩

/-- A driver whose calls succeed and whose single-row fetch yields the
named row mapping `count` to 7. -/
def dictCountDriver : Driver where
  execOutcome := fun _ _ => .ok ()
  execManyOutcome := fun _ _ => .ok ()
  fetchallOutcome := .ok [Row.dict [("count", 7)]]
  fetchoneOutcome := .ok (some (Row.dict [("count", 7)]))
  commitOutcome := .ok ()
  rollbackOutcome := .ok ()

/-- A driver whose calls succeed but whose fetches see an empty result
set: `fetchall` yields no rows and `fetchone` yields `None`. -/
def emptyFetchDriver : Driver where
  execOutcome := fun _ _ => .ok ()
  execManyOutcome := fun _ _ => .ok ()
  fetchallOutcome := .ok []
  fetchoneOutcome := .ok none
  commitOutcome := .ok ()
  rollbackOutcome := .ok ()

/-- C7: when the count statement executes successfully and yields a single
row of the configured shape, `select_get_count_query` returns the value of
the field named `count` under the named (dict) result shape, and the value
at the first position under the positional (tuple) result shape. -/
theorem C7_count_query_returns_count
    (d1 d2 : Driver) (q : String) (p : Option Params)
    (fields : List (String × Int)) (n : Int) (vals : List Int) (v : Int)
    (hexec1 : d1.execOutcome q p = .ok ())
    (hone1 : d1.fetchoneOutcome = .ok (some (Row.dict fields)))
    (hcount : fields.lookup "count" = some n)
    (hexec2 : d2.execOutcome q p = .ok ())
    (hone2 : d2.fetchoneOutcome = .ok (some (Row.tup (v :: vals)))) :
    ((PostgresHelper.select_get_count_query d1 true q p).result = .ok n
      ∧ (PostgresHelper.select_get_count_query d1 true q p).events
          = [.execute q p, .fetchone])
    ∧ ((PostgresHelper.select_get_count_query d2 false q p).result = .ok v
      ∧ (PostgresHelper.select_get_count_query d2 false q p).events
          = [.execute q p, .fetchone]) := by
  constructor
  · simp [PostgresHelper.select_get_count_query, hexec1, hone1, subscriptCount, hcount]
  · simp [PostgresHelper.select_get_count_query, hexec2, hone2, subscriptCount]

/-- Witness for C7: the named shape reads `count` from the dict row (7);
the positional shape reads the first tuple position (1). -/
theorem C7_count_query_returns_count_witness :
    (PostgresHelper.select_get_count_query dictCountDriver true
        "SELECT COUNT(*) as count FROM t" none).result = .ok 7
    ∧ (PostgresHelper.select_get_count_query okDriver false
        "SELECT COUNT(*) FROM t" none).result = .ok 1 := by
  have h := C7_count_query_returns_count dictCountDriver okDriver
    "SELECT COUNT(*) as count FROM t" none [("count", 7)] 7 [] 1 rfl rfl rfl rfl rfl
  have h2 := C7_count_query_returns_count dictCountDriver okDriver
    "SELECT COUNT(*) FROM t" none [("count", 7)] 7 [] 1 rfl rfl rfl rfl rfl
  exact ⟨h.1.1, h2.2.1⟩

/-- C9: a count statement whose execution yields zero rows makes
`fetchone()` return `None`; the subscription at line 149 then raises
`TypeError`, which the generic handler logs, rolls back and re-raises as
`PostgresDbQueryExecutionError` — no returned value and no distinct
zero-row error, in either result shape. -/
theorem C9_zero_rows_generic_failure
    (d : Driver) (udc : Bool) (q : String) (p : Option Params)
    (hexec : d.execOutcome q p = .ok ())
    (hone : d.fetchoneOutcome = .ok none)
    (hrb : d.rollbackOutcome = .ok ()) :
    (PostgresHelper.select_get_count_query d udc q p).result
        = .error (.queryExecutionError ("Error getting row count: "
            ++ "TypeError: NoneType object is not subscriptable"))
    ∧ (PostgresHelper.select_get_count_query d udc q p).events
        = [.execute q p, .fetchone,
           .logError ("Error getting row count: "
             ++ "TypeError: NoneType object is not subscriptable"), .rollbackCall] := by
  simp [PostgresHelper.select_get_count_query, hexec, hone, subscriptCount,
    execExceptBlock, hrb]

/-- Witness for C9: with an empty result set, the count query raises the
generic `PostgresDbQueryExecutionError` wrapping the `TypeError`. -/
theorem C9_zero_rows_generic_failure_witness :
    (PostgresHelper.select_get_count_query emptyFetchDriver true
        "SELECT COUNT(*) as count FROM t WHERE false" none).result
      = .error (.queryExecutionError ("Error getting row count: "
          ++ "TypeError: NoneType object is not subscriptable")) :=
  (C9_zero_rows_generic_failure emptyFetchDriver true
    "SELECT COUNT(*) as count FROM t WHERE false" none rfl rfl rfl).1

/-- C8 counterexample: the claim says that after `close()` has run, a
second `close()` releases no resource a second time.  But `close()` never
clears `self.cursor` or `self.connection` — the state it leaves behind
(`st1`) still holds both — so the second call re-invokes both
`cursor.close()` and `connection.close()`, as its trace shows. -/
theorem C8_counterexample :
    ∃ st1, (PostgresHelper.close ⟨.ok (), .ok ()⟩ ⟨true, true⟩).result = .ok st1
    ∧ Event.closeCursor ∈ (PostgresHelper.close ⟨.ok (), .ok ()⟩ st1).events
    ∧ Event.closeConnection ∈ (PostgresHelper.close ⟨.ok (), .ok ()⟩ st1).events := by
  refine ⟨⟨true, true⟩, rfl, ?_, ?_⟩ <;>
    simp [PostgresHelper.close, closeConnPart]

/-- C8 (amended): `close()` releases the cursor and then the connection,
in that order, each only if the corresponding attribute is truthy; it logs
a success message after closing the connection; a failing release is
logged and raised as `PostgresDbConnectionError` (a cursor-close failure
preventing the connection close).  It does not clear the attributes: the
state is returned unchanged, so a second `close()` repeats both underlying
close calls, and avoids failing only because the driver close calls are
themselves idempotent. -/
theorem C8_close_order_guards_and_no_reset
    (d : CloseDriver) (st : HelperState) (e : String)
    (hc : d.cursorCloseOutcome = .ok ())
    (hk : d.connCloseOutcome = .ok ()) :
    (st.cursor = true → st.connection = true →
      (PostgresHelper.close d st).result = .ok st
      ∧ (PostgresHelper.close d st).events
          = [.closeCursor, .closeConnection, .logInfo "Database connection closed."])
    ∧ (st.cursor = false → Event.closeCursor ∉ (PostgresHelper.close d st).events)
    ∧ (st.connection = false → Event.closeConnection ∉ (PostgresHelper.close d st).events)
    ∧ (∀ st1, (PostgresHelper.close d st).result = .ok st1 → st1 = st)
    ∧ (∀ d2 : CloseDriver, st.cursor = true → d2.cursorCloseOutcome = .error e →
        (PostgresHelper.close d2 st).result
          = .error (.connectionError ("Error closing connection: " ++ e))
        ∧ (PostgresHelper.close d2 st).events
          = [.closeCursor, .logError ("Error closing connection: " ++ e)]) := by
  refine ⟨?_, ?_, ?_, ?_, ?_⟩
  · intro h1 h2
    constructor <;> simp [PostgresHelper.close, closeConnPart, h1, h2, hc, hk]
  · intro h1
    cases hcn : st.connection <;>
      simp [PostgresHelper.close, closeConnPart, h1, hcn, hc, hk]
  · intro h2
    cases hcu : st.cursor <;>
      simp [PostgresHelper.close, closeConnPart, h2, hcu, hc, hk]
  · intro st1 hres
    cases hcu : st.cursor <;> cases hcn : st.connection <;>
      simp [PostgresHelper.close, closeConnPart, hcu, hcn, hc, hk] at hres <;>
      exact hres.symm
  · intro d2 h1 h2
    constructor <;> simp [PostgresHelper.close, closeConnPart, h1, h2]

/-- Witness for C8 (amended): a fully-set state with succeeding driver
closes yields the cursor-then-connection trace with the success log, and
returns the state unchanged. -/
theorem C8_close_order_guards_and_no_reset_witness :
    (PostgresHelper.close ⟨.ok (), .ok ()⟩ ⟨true, true⟩).events
        = [.closeCursor, .closeConnection, .logInfo "Database connection closed."]
    ∧ (PostgresHelper.close ⟨.ok (), .ok ()⟩ ⟨true, true⟩).result
        = .ok (⟨true, true⟩ : HelperState) := by
  have h := C8_close_order_guards_and_no_reset ⟨.ok (), .ok ()⟩ ⟨true, true⟩ "x" rfl rfl
  exact ⟨(h.1 rfl rfl).2, (h.1 rfl rfl).1⟩

/-- C10 counterexample: the claim says that for every non-empty row list a
non-positive chunk size fails with `QueryExecutionError`.  With the
negative chunk size -1 and one row, `range(0, 1, -1)` is simply empty:
no row is executed and `bulk_insert` returns successfully, committing
because autocommit is enabled. -/
theorem C10_counterexample :
    (PostgresHelper.bulk_insert okDriver true "INSERT INTO t VALUES (%s)"
        [[1]] (-1)).result = .ok ()
    ∧ appliedRows (PostgresHelper.bulk_insert okDriver true "INSERT INTO t VALUES (%s)"
        [[1]] (-1)).events = [] := by
  constructor <;> rfl

/-- C10 (amended): chunk size zero makes `range(0, len(data), 0)` raise
`ValueError` before any chunk is formed: nothing executes, the failure is
logged, the connection is rolled back and `PostgresDbQueryExecutionError`
is raised.  A negative chunk size instead yields an empty start-index
sequence: nothing executes and the call returns successfully, issuing a
commit exactly when autocommit mode is enabled. -/
theorem C10_nonpositive_chunk_size
    (d : Driver) (ac : Bool) (q : String) (data : List Params) (cs : Int)
    (hrb : d.rollbackOutcome = .ok ())
    (hcm : d.commitOutcome = .ok ())
    (hneg : cs < 0) :
    ((PostgresHelper.bulk_insert d ac q data 0).result
        = .error (.queryExecutionError
            ("Error executing bulk insert: " ++ "range() arg 3 must not be zero"))
      ∧ (PostgresHelper.bulk_insert d ac q data 0).events
        = [.logError ("Error executing bulk insert: " ++ "range() arg 3 must not be zero"),
           .rollbackCall]
      ∧ appliedRows (PostgresHelper.bulk_insert d ac q data 0).events = [])
    ∧ ((PostgresHelper.bulk_insert d ac q data cs).result = .ok ()
      ∧ appliedRows (PostgresHelper.bulk_insert d ac q data cs).events = []
      ∧ (PostgresHelper.bulk_insert d ac q data cs).events
          = if ac then [Event.commitCall] else []) := by
  have h0 : ¬ cs = 0 := by omega
  constructor
  · refine ⟨?_, ?_, ?_⟩ <;>
      simp [PostgresHelper.bulk_insert, pyRange0, execExceptBlock, hrb,
        appliedRows, Event.appliedParams]
  · have hr : pyRange0 data.length cs = .ok [] := by
      simp [pyRange0, h0, hneg]
    refine ⟨?_, ?_, ?_⟩ <;>
      cases ac <;>
        simp [PostgresHelper.bulk_insert, hr, bulkExecLoop, hcm,
          appliedRows, Event.appliedParams]

/-- Witness for C10 (amended): chunk size zero on one row raises the
wrapped `ValueError`; chunk size -1 on the same row succeeds executing
nothing. -/
theorem C10_nonpositive_chunk_size_witness :
    (PostgresHelper.bulk_insert okDriver true "INSERT INTO t VALUES (%s)" [[1]] 0).result
        = .error (.queryExecutionError
            ("Error executing bulk insert: " ++ "range() arg 3 must not be zero"))
    ∧ (PostgresHelper.bulk_insert okDriver true "INSERT INTO t VALUES (%s)" [[1]] (-1)).result
        = .ok () := by
  have h := C10_nonpositive_chunk_size okDriver true "INSERT INTO t VALUES (%s)"
    [[1]] (-1) rfl rfl (by decide)
  exact ⟨h.1.1, h.2.1⟩
